import Mathlib

/-!
Shallow embedding of the responsive-image pipeline of
`src/builtins/amp-img.js`: srcset selection (modelled from the spec, since
`src/srcset.js` itself is not among the provided sources), the low-res palette
filter, the mosaic placeholder builder `blurWithWorker`, the shared worker's
response handler, the throttled `loadPromise`, and the `layoutCallback`
fallback state machine.  Machine arithmetic is over `Nat`/`ℚ`; JS exceptions
are `Except JsError`; DOM writes and resource loads are recorded as effect
lists in program order.
-/

namespace AmpImg

/-- One srcset candidate declared by width (`{url, width}`).  Width is a
rational, standing for the JS number. -/
structure Candidate where
  url : String
  width : ℚ
deriving DecidableEq, Repr

/-- Fold picking the earliest candidate of smallest width. -/
def minByWidth : Candidate → List Candidate → Candidate
  | c, [] => c
  | c, d :: ds => minByWidth (if d.width < c.width then d else c) ds

/-- Fold picking the earliest candidate of largest width. -/
def maxByWidth : Candidate → List Candidate → Candidate
  | c, [] => c
  | c, d :: ds => maxByWidth (if c.width < d.width then d else c) ds

/-- Modelled from the spec: `Srcset.select` is imported from `src/srcset.js`,
which is missing from the provided sources (only its caller `updateImageSrc_`
is present).  Per the spec's selection algorithm for width-declared
candidates: effective target pixel width = `viewportWidth * devicePixelRatio`;
choose the candidate with the smallest declared width that is ≥ the target;
if none qualifies, choose the candidate with the largest declared width. -/
def srcsetSelect (cs : List Candidate) (vw dpr : ℚ) : Option String :=
  match cs.filter fun c => decide (vw * dpr ≤ c.width) with
  | q :: qs => some (minByWidth q qs).url
  | [] =>
    match cs with
    | [] => none
    | c :: rest => some (maxByWidth c rest).url

/-- `select` never sees an empty srcset in the source (a `Srcset` always has a
candidate); default keeps the embedding total. -/
def selectD (cs : List Candidate) (vw dpr : ℚ) : String :=
  (srcsetSelect cs vw dpr).getD ""

/-- `this.getViewport().getWidth() || this.win.screen.width`
(line 240): the screen width is used only when the viewport width is 0. -/
def effectiveWidth (viewportWidth screenWidth : ℚ) : ℚ :=
  if viewportWidth = 0 then screenWidth else viewportWidth

/-- Character class `[a-z0-9]` of the low-res token regex (line 244). -/
def isLowerAlnum (c : Char) : Bool :=
  (decide ('a' ≤ c) && decide (c ≤ 'z')) || (decide ('0' ≤ c) && decide (c ≤ '9'))

/-- A window of six characters at the head of `l`, all in `[a-z0-9]`. -/
def windowSixOk (l : List Char) : Bool :=
  decide (6 ≤ l.length) && (l.take 6).all isLowerAlnum

/-- `p.match(/([a-z0-9]{6})/)` succeeds iff some six consecutive characters
of `p` all lie in `[a-z0-9]` (the regex is unanchored). -/
def hasRunSix : List Char → Bool
  | [] => false
  | c :: cs => windowSixOk (c :: cs) || hasRunSix cs

/-- The per-token filter of the low-res reduce (lines 243-248): the token is
pushed iff the unanchored six-character match succeeds. -/
def tokenKept (s : String) : Bool := hasRunSix s.data

/-- JS `\s` on the whitespace characters that occur in attribute values. -/
def isWsChar (c : Char) : Bool := c == ' ' || c == '\t' || c == '\n' || c == '\r'

/-- Consume the remainder of a whitespace run; everything after it is kept. -/
def dropWsRun : List Char → List Char
  | [] => []
  | c :: cs => if isWsChar c then dropWsRun cs else c :: cs

/-- `.replace(/\s+/, ' ')` (line 242): the regex is not global, so only the
FIRST maximal whitespace run is collapsed to a single space. -/
def replaceFirstWsRun : List Char → List Char
  | [] => []
  | c :: cs => if isWsChar c then ' ' :: dropWsRun cs else c :: replaceFirstWsRun cs

/-- The whole palette pipeline of lines 242-248:
`lowRes.replace(/\s+/, ' ').split(' ')` then the reduce keeping matched
tokens. -/
def computePalette (s : String) : List String :=
  (((replaceFirstWsRun s.data).splitOn ' ').map List.asString).filter tokenKept

/-- Spec-vocabulary predicate (for comparison only, NOT from the source): a
token that "is a valid 6-hex-digit color" — exactly six characters, each a
hex digit. -/
def isHexDigit (c : Char) : Bool :=
  (decide ('0' ≤ c) && decide (c ≤ '9')) ||
  (decide ('a' ≤ c) && decide (c ≤ 'f')) ||
  (decide ('A' ≤ c) && decide (c ≤ 'F'))

/-- Spec-vocabulary predicate (for comparison only, NOT from the source). -/
def isHex6Color (s : String) : Bool :=
  decide (s.data.length = 6) && s.data.all isHexDigit

/-- Greatest `j ≤ k` with `j * j ≤ n` (0 when none): structural search used
to embed `Math.sqrt` on naturals. -/
def sqrtSearch (n : Nat) : Nat → Nat
  | 0 => 0
  | k + 1 => if (k + 1) * (k + 1) ≤ n then k + 1 else sqrtSearch n k

/-- `Math.floor (Math.sqrt n)` for a natural `n`. -/
def jsSqrtFloor (n : Nat) : Nat := sqrtSearch n n

/-- `Math.sqrt n % 1 == 0`: the palette length is a perfect square. -/
def isSquareLen (n : Nat) : Bool := jsSqrtFloor n * jsSqrtFloor n == n

/-- Number of iterations of `i < dim` (and of `j < dim`) in the mosaic loop,
`dim = Math.sqrt n`: `√n` when `n` is a perfect square, `⌊√n⌋ + 1`
otherwise. -/
def dimIter (n : Nat) : Nat :=
  if isSquareLen n then jsSqrtFloor n else jsSqrtFloor n + 1

/-- JS exceptions reachable in this embedding.  `placeholderShapeError` is
the spec's name for a palette-shape failure; it exists here so the spec's
error taxonomy is statable — no code path of the source raises it. -/
inductive JsError where
  | typeError
  | placeholderShapeError
deriving DecidableEq, Repr

/-- DOM writes and resource loads performed by `updateImageSrc_` and
`blurWithWorker`, recorded in program order. -/
inductive UEffect where
  /-- `createImg(src)` (line 720-724): a fresh `Image` gets its `src` set,
  which starts a browser load of that URL. -/
  | probeLoadStarted (url : String)
  /-- `loadPromise(...)` (line 709-718) assigns `el.onload` on the probe. -/
  | probeOnloadInstalled (url : String)
  /-- `this.img_.setAttribute('src', src)` (line 255): the visible image
  begins loading this URL. -/
  | imgSrcSet (url : String)
  /-- `assert` (lines 609-613) printed `Assertion failed`; it does not
  throw. -/
  | logAssertFailed
  /-- `worker.postMessage(...)` (line 690). -/
  | workerMessagePosted
  /-- `this.element.appendChild(loadingPlaceholder)` (line 260). -/
  | placeholderAppended
  /-- `this.element.appendChild(loadingIndicator)` (line 263). -/
  | indicatorAppended
  /-- `this.element.appendChild(container)` (line 266). -/
  | containerAppended (url : String)
  /-- `whenImageLoaded.then(...)` (lines 268-273) chains the container
  reveal on the probe's load promise. -/
  | revealChainAttached
  /-- `this.loadPromise(this.img_).then(...)` (lines 276-285). -/
  | mainLoadChainAttached
deriving DecidableEq, Repr

/-- The placeholder canvas as configured by `blurWithWorker` (lines 645-704):
`reducedWidth = 100`, `reducedHeight = floor(100 / (width/height))`,
`canvas.style.opacity = '0'`, and the number of mosaic cells painted by the
`fillRect` loop. -/
structure Canvas where
  widthPx : Nat
  heightPx : Nat
  styleOpacity : String
  cells : Nat
deriving DecidableEq, Repr

/-- The mosaic `fillRect` loop of lines 675-685, flattened over the cell
index `p`: each cell reads `pixels[p].trim()`; when `p` runs past the end of
the palette, `pixels[p]` is `undefined` and `.trim()` throws a `TypeError`.
Returns the number of cells painted. -/
def fillCellsFrom (pixels : List String) : Nat → Nat → Except JsError Nat
  | _, 0 => Except.ok 0
  | p, k + 1 =>
    match pixels.get? p with
    | none => Except.error JsError.typeError
    | some _ => (fillCellsFrom pixels (p + 1) k).map (· + 1)

/-- `blurWithWorker(loadPromise, width, height, pixels)` (lines 645-704) at
the call site's `width = height = 200` (so `aspect = 1`, reduced canvas
100×100).  `dim = Math.sqrt(pixels.length)`; `assert(dim % 1 == 0)` only
logs on failure; the mosaic loop runs `dimIter × dimIter` cells and throws a
`TypeError` on the first out-of-range palette read; on success the pixel
buffer is posted to the worker and the canvas (initial opacity "0") is
returned.  The handlers it registers on the load promise are modelled by
`canvasOpacityAt` / `canvasRemovalTime` below. -/
def blurWithWorker (pixels : List String) : List UEffect × Except JsError Canvas :=
  let n := pixels.length
  let d := dimIter n
  let assertEffs : List UEffect :=
    if isSquareLen n then [] else [UEffect.logAssertFailed]
  match fillCellsFrom pixels 0 (d * d) with
  | Except.error e => (assertEffs, Except.error e)
  | Except.ok cells =>
      (assertEffs ++ [UEffect.workerMessagePosted],
       Except.ok { widthPx := 100, heightPx := 100, styleOpacity := "0", cells := cells })

/-- The element-level inputs read by `updateImageSrc_` (lines 231-286). -/
structure UpdCtx where
  /-- `this.getLayoutWidth()` (line 232). -/
  layoutWidth : ℚ
  /-- `this.useNativeSrcset_` (line 236). -/
  useNativeSrcset : Bool
  /-- `this.srcset_`, parsed candidates declared by width. -/
  srcset : List Candidate
  /-- `this.getViewport().getWidth()` (line 240). -/
  viewportWidth : ℚ
  /-- `this.win.screen.width` (line 240). -/
  screenWidth : ℚ
  /-- `this.getDpr()` (line 241). -/
  dpr : ℚ
  /-- `this.element.getAttribute('low-res')` (line 242); `none` is JS
  `null`. -/
  lowResAttr : Option String
  /-- `this.img_.getAttribute('src')` (line 251). -/
  imgSrcAttr : Option String
deriving DecidableEq, Repr

/-- How the promise returned by `updateImageSrc_` is produced. -/
inductive UpdOutcome where
  /-- `return Promise.resolve()` (lines 233, 252). -/
  | resolvedImmediate
  /-- `return this.loadPromise(this.img_).then(...)` (line 276). -/
  | mainChain
deriving DecidableEq, Repr

/-- `updateImageSrc_` (lines 231-286), transcribed in source order: the
zero-width guard; the native-srcset branch skips straight to the main load
chain; otherwise select `src`, compute the palette (throws `TypeError` if
`low-res` is absent, before any effect), create the probe image and its load
promise, return early if `src` equals the current `img` src (the probe
effects have already happened), else set the `src` attribute, build the
placeholder via `blurWithWorker` (its `TypeError` propagates), append
placeholder / indicator / container, chain the reveal, and finally chain on
the element image's own load promise. -/
def updateImageSrc (ctx : UpdCtx) : List UEffect × Except JsError UpdOutcome :=
  if ctx.layoutWidth ≤ 0 then ([], Except.ok UpdOutcome.resolvedImmediate)
  else if ctx.useNativeSrcset then
    ([UEffect.mainLoadChainAttached], Except.ok UpdOutcome.mainChain)
  else
    let src := selectD ctx.srcset (effectiveWidth ctx.viewportWidth ctx.screenWidth) ctx.dpr
    match ctx.lowResAttr with
    | none => ([], Except.error JsError.typeError)
    | some lowRes =>
      let palette := computePalette lowRes
      let probeEffs := [UEffect.probeLoadStarted src, UEffect.probeOnloadInstalled src]
      if ctx.imgSrcAttr = some src then (probeEffs, Except.ok UpdOutcome.resolvedImmediate)
      else
        match blurWithWorker palette with
        | (blurEffs, Except.error e) =>
            (probeEffs ++ [UEffect.imgSrcSet src] ++ blurEffs, Except.error e)
        | (blurEffs, Except.ok _) =>
            (probeEffs ++ [UEffect.imgSrcSet src] ++ blurEffs ++
              [UEffect.placeholderAppended, UEffect.indicatorAppended,
               UEffect.containerAppended src, UEffect.revealChainAttached,
               UEffect.mainLoadChainAttached],
             Except.ok UpdOutcome.mainChain)

/-- `const THROTTLE = 1200` (line 312). -/
def THROTTLE : Nat := 1200

/-- `const throttle = THROTTLE + Math.floor(Math.random() * THROTTLE)`
(line 710); `k` stands for the sampled `Math.floor(Math.random() * THROTTLE)`,
which lies in `[0, THROTTLE)`. -/
def throttleOf (k : Nat) : Nat := THROTTLE + k

/-- The delay passed to `setTimeout` inside the `onload` handler (line 714):
`Math.max(0, throttle - (Date.now() - start))`, with `elapsed` the time from
the `loadPromise` call to the `load` event.  (`Nat` subtraction already
truncates at 0 exactly like the `Math.max(0, ·)`.) -/
def onloadDelay (k elapsed : Nat) : Nat := max 0 (throttleOf k - elapsed)

/-- The browser events that can fire on an image element, as offsets (ms)
from the `loadPromise` call; `none` means the event never fires. -/
structure ElementEvents where
  loadAt : Option Nat
  errorAt : Option Nat
deriving DecidableEq, Repr

/-- How a promise settles, with the time offset. -/
inductive Settlement where
  | resolved (t : Nat)
  | rejected (t : Nat)
deriving DecidableEq, Repr

/-- Settlement of the promise returned by `loadPromise` (lines 709-718).
The executor captures only `resolve`; the only handler installed is
`el.onload`, so the `error` event is never consulted and no call ever
rejects: the promise resolves at `loadAt + onloadDelay` when `load` fires,
and never settles otherwise. -/
def loadPromiseSettlement (k : Nat) (ev : ElementEvents) : Option Settlement :=
  match ev.loadAt with
  | some e => some (Settlement.resolved (e + onloadDelay k e))
  | none => none

/-- Resolution time extracted from a settlement. -/
def settleTime : Option Settlement → Option Nat
  | some (Settlement.resolved t) => some t
  | _ => none

/-- Whether a scheduled moment has occurred by time `t`. -/
def firedB : Option Nat → Nat → Bool
  | none, _ => false
  | some t0, t => decide (t0 ≤ t)

/-- The opacity of the placeholder canvas at time `t`, given when the
worker's blur response is applied (`getWorker`'s `onmessage`, line 636 sets
`canvas.style.opacity = 1`) and when the probe's load promise resolves
(`blurWithWorker` line 697 sets opacity to "1").  Initially "0"
(line 667). -/
def canvasOpacityAt (workerReplyAt loadResolveAt : Option Nat) (t : Nat) : String :=
  if firedB workerReplyAt t || firedB loadResolveAt t then "1" else "0"

/-- `setTimeout(() => canvas.remove(), 500)` scheduled inside the load
promise continuation (lines 698-700): removal happens exactly 500ms after
resolution, unconditionally; nothing else removes the canvas. -/
def canvasRemovalTime (loadResolveAt : Option Nat) : Option Nat :=
  loadResolveAt.map (· + 500)

/-- Whether the canvas has been detached from the document by time `t`. -/
def canvasRemovedAt (loadResolveAt : Option Nat) (t : Nat) : Bool :=
  firedB (canvasRemovalTime loadResolveAt) t

/-- The `whenImageLoaded.then` continuation of `updateImageSrc_`
(lines 268-273): the image container's opacity transition (and indicator
removal) runs exactly when the probe's load promise resolves. -/
def containerRevealTime (k : Nat) (ev : ElementEvents) : Option Nat :=
  settleTime (loadPromiseSettlement k ev)

/-- DOM mutations of the main-thread worker response handler. -/
inductive WEffect where
  | putImageData (id : String)
  | setOpacityOne (id : String)
deriving DecidableEq, Repr

/-- The `worker.onmessage` handler installed by `getWorker` (lines 631-637):
`document.getElementById(id)` is `null` when no canvas with that id is in
the document, and `canvas.getContext("2d")` on `null` throws a `TypeError`;
otherwise the blurred data is written back and the canvas revealed.  `doc`
is the list of canvas ids currently in the document. -/
def workerOnMessage (doc : List String) (msgId : String) : Except JsError (List WEffect) :=
  if doc.contains msgId then
    Except.ok [WEffect.putImageData msgId, WEffect.setOpacityOne msgId]
  else
    Except.error JsError.typeError

/-- The per-element state consulted by `layoutCallback`:
`this.img_ != null` and `this.allowImgLoadFallback_`. -/
structure ElemState where
  imgInit : Bool
  allowImgLoadFallback : Bool
deriving DecidableEq, Repr

/-- Constructor state (lines 43-50): `allowImgLoadFallback_ = true`,
`img_ = null`. -/
def initialState : ElemState := { imgInit := false, allowImgLoadFallback := true }

/-- `initialize_` (lines 131-175): returns immediately once `img_` exists;
on the first call it sets `allowImgLoadFallback_ = !hasAttribute('fallback')`
and creates the image node. -/
def initializeStep (hasFallbackAttr : Bool) (s : ElemState) : ElemState :=
  if s.imgInit then s
  else { imgInit := true, allowImgLoadFallback := !hasFallbackAttr }

/-- `layoutCallback` (lines 192-207): run `initialize_`, then attach the
fallback `catch` to this call's promise only when `allowImgLoadFallback_` is
still true, clearing the flag.  Returns the new state and whether the catch
was attached. -/
def layoutStep (hasFallbackAttr : Bool) (s : ElemState) : ElemState × Bool :=
  let s1 := initializeStep hasFallbackAttr s
  if s1.allowImgLoadFallback then
    ({ s1 with allowImgLoadFallback := false }, true)
  else (s1, false)

/-- Observable outcome of one `layoutCallback` whose load fails iff `fails`:
whether `onImgLoadingError_` runs (the catch body, lines 200-203 — only when
the catch was attached and the load failed) and whether the returned promise
rejects (the catch rethrows `e`, so every failure surfaces). -/
def layoutOutcome (attached fails : Bool) : Bool × Bool := (attached && fails, fails)

/-- Iterated `layoutCallback`s: `fails` gives each call's load outcome;
produces per-call `(fallbackTriggered, promiseRejected)` pairs. -/
def runLayouts (hasFallbackAttr : Bool) : ElemState → List Bool → List (Bool × Bool)
  | _, [] => []
  | s, f :: fs =>
    let r := layoutStep hasFallbackAttr s
    layoutOutcome r.2 f :: runLayouts hasFallbackAttr r.1 fs

/-! Helper lemmas. -/

theorem minByWidth_mem (ds : List Candidate) (c : Candidate) :
    minByWidth c ds ∈ c :: ds := by
  induction ds generalizing c with
  | nil => simp [minByWidth]
  | cons d ds ih =>
    by_cases hd : d.width < c.width
    · simp only [minByWidth, if_pos hd]
      exact List.mem_cons_of_mem c (ih d)
    · simp only [minByWidth, if_neg hd]
      rcases List.mem_cons.mp (ih c) with h1 | h1
      · rw [h1]; exact List.mem_cons_self c (d :: ds)
      · exact List.mem_cons_of_mem c (List.mem_cons_of_mem d h1)

theorem minByWidth_le (ds : List Candidate) (c : Candidate) :
    ∀ e ∈ c :: ds, (minByWidth c ds).width ≤ e.width := by
  induction ds generalizing c with
  | nil =>
    intro e he
    rcases List.mem_cons.mp he with h | h
    · rw [h]; simp [minByWidth]
    · simp at h
  | cons d ds ih =>
    intro e he
    by_cases hd : d.width < c.width
    · simp only [minByWidth, if_pos hd]
      rcases List.mem_cons.mp he with h | h
      · rw [h]
        exact le_trans (ih d d (List.mem_cons_self d ds)) (le_of_lt hd)
      · rcases List.mem_cons.mp h with h1 | h1
        · rw [h1]; exact ih d d (List.mem_cons_self d ds)
        · exact ih d e (List.mem_cons_of_mem d h1)
    · simp only [minByWidth, if_neg hd]
      rcases List.mem_cons.mp he with h | h
      · rw [h]; exact ih c c (List.mem_cons_self c ds)
      · rcases List.mem_cons.mp h with h1 | h1
        · rw [h1]
          exact le_trans (ih c c (List.mem_cons_self c ds)) (le_of_not_lt hd)
        · exact ih c e (List.mem_cons_of_mem c h1)

theorem maxByWidth_mem (ds : List Candidate) (c : Candidate) :
    maxByWidth c ds ∈ c :: ds := by
  induction ds generalizing c with
  | nil => simp [maxByWidth]
  | cons d ds ih =>
    by_cases hd : c.width < d.width
    · simp only [maxByWidth, if_pos hd]
      exact List.mem_cons_of_mem c (ih d)
    · simp only [maxByWidth, if_neg hd]
      rcases List.mem_cons.mp (ih c) with h1 | h1
      · rw [h1]; exact List.mem_cons_self c (d :: ds)
      · exact List.mem_cons_of_mem c (List.mem_cons_of_mem d h1)

theorem maxByWidth_ge (ds : List Candidate) (c : Candidate) :
    ∀ e ∈ c :: ds, e.width ≤ (maxByWidth c ds).width := by
  induction ds generalizing c with
  | nil =>
    intro e he
    rcases List.mem_cons.mp he with h | h
    · rw [h]; simp [maxByWidth]
    · simp at h
  | cons d ds ih =>
    intro e he
    by_cases hd : c.width < d.width
    · simp only [maxByWidth, if_pos hd]
      rcases List.mem_cons.mp he with h | h
      · rw [h]
        exact le_trans (le_of_lt hd) (ih d d (List.mem_cons_self d ds))
      · rcases List.mem_cons.mp h with h1 | h1
        · rw [h1]; exact ih d d (List.mem_cons_self d ds)
        · exact ih d e (List.mem_cons_of_mem d h1)
    · simp only [maxByWidth, if_neg hd]
      rcases List.mem_cons.mp he with h | h
      · rw [h]; exact ih c c (List.mem_cons_self c ds)
      · rcases List.mem_cons.mp h with h1 | h1
        · rw [h1]
          exact le_trans (le_of_not_lt hd) (ih c c (List.mem_cons_self c ds))
        · exact ih c e (List.mem_cons_of_mem c h1)

/-- Claim C1: for every non-empty width-declared SourceSet and every selection
context with positive viewport width and device-pixel ratio, the selection
step returns the URL of a candidate of the smallest declared width ≥
viewportWidth * devicePixelRatio, and, when no candidate reaches that
target, of a candidate of the largest declared width; in particular
SourceSet [(a.jpg,320),(b.jpg,640)] selects a.jpg under (300,1) and b.jpg
under (400,2). -/
theorem c1_srcset_selection (cs : List Candidate) (vw dpr : ℚ)
    (hne : cs ≠ []) (_hvw : 0 < vw) (_hdpr : 0 < dpr) :
    (∃ c, c ∈ cs ∧ srcsetSelect cs vw dpr = some c.url ∧
      (∀ q ∈ cs, vw * dpr ≤ q.width → vw * dpr ≤ c.width ∧ c.width ≤ q.width) ∧
      ((∀ q ∈ cs, q.width < vw * dpr) → ∀ q ∈ cs, q.width ≤ c.width)) ∧
    srcsetSelect [⟨"a.jpg", 320⟩, ⟨"b.jpg", 640⟩] 300 1 = some "a.jpg" ∧
    srcsetSelect [⟨"a.jpg", 320⟩, ⟨"b.jpg", 640⟩] 400 2 = some "b.jpg" := by
  refine ⟨?_, ?_, ?_⟩
  · cases hq : cs.filter (fun c => decide (vw * dpr ≤ c.width)) with
    | cons q qs =>
      have hsub : ∀ e, e ∈ q :: qs → e ∈ cs ∧ vw * dpr ≤ e.width := by
        intro e he
        rw [← hq] at he
        have h := List.mem_filter.mp he
        exact ⟨h.1, of_decide_eq_true h.2⟩
      have hmem := minByWidth_mem qs q
      refine ⟨minByWidth q qs, (hsub _ hmem).1, ?_, ?_, ?_⟩
      · simp only [srcsetSelect, hq]
      · intro q' hq' hle
        refine ⟨(hsub _ hmem).2, ?_⟩
        have hqf : q' ∈ q :: qs := by
          rw [← hq]
          exact List.mem_filter.mpr ⟨hq', decide_eq_true hle⟩
        exact minByWidth_le qs q q' hqf
      · intro hall q' hq'
        exact absurd (hsub _ hmem).2 (not_le.mpr (hall _ (hsub _ hmem).1))
    | nil =>
      cases cs with
      | nil => exact absurd rfl hne
      | cons c0 rest =>
        have hmem := maxByWidth_mem rest c0
        refine ⟨maxByWidth c0 rest, hmem, ?_, ?_, ?_⟩
        · simp only [srcsetSelect, hq]
        · intro q' hq' hle
          have : q' ∈ (c0 :: rest).filter (fun c => decide (vw * dpr ≤ c.width)) :=
            List.mem_filter.mpr ⟨hq', decide_eq_true hle⟩
          rw [hq] at this
          simp at this
        · intro _ q' hq'
          exact maxByWidth_ge rest c0 q' hq'
  · norm_num [srcsetSelect, List.filter_cons, minByWidth]
  · norm_num [srcsetSelect, List.filter_cons, maxByWidth]

/-- Witness for claim C1 at the spec's scenarios A and B. -/
theorem c1_srcset_selection_witness :
    srcsetSelect [⟨"a.jpg", 320⟩, ⟨"b.jpg", 640⟩] 300 1 = some "a.jpg" ∧
    srcsetSelect [⟨"a.jpg", 320⟩, ⟨"b.jpg", 640⟩] 400 2 = some "b.jpg" := by
  have h := c1_srcset_selection [⟨"a.jpg", 320⟩, ⟨"b.jpg", 640⟩] 300 1
    (by simp) (by norm_num) (by norm_num)
  exact ⟨h.2.1, h.2.2⟩

theorem layoutStep_initial_state (b : Bool) :
    (layoutStep b initialState).1 = { imgInit := true, allowImgLoadFallback := false } := by
  cases b <;> rfl

theorem layoutStep_steady (b : Bool) :
    layoutStep b { imgInit := true, allowImgLoadFallback := false } =
      ({ imgInit := true, allowImgLoadFallback := false }, false) := rfl

theorem runLayouts_steady (b : Bool) (fs : List Bool) (i : Nat) :
    (runLayouts b { imgInit := true, allowImgLoadFallback := false } fs).get? i =
      (fs.get? i).map (fun f => (false, f)) := by
  induction fs generalizing i with
  | nil => simp [runLayouts]
  | cons f fs ih =>
    cases i with
    | zero => simp [runLayouts, layoutStep_steady, layoutOutcome]
    | succ n =>
      simp only [runLayouts, layoutStep_steady]
      exact ih n

/-- Claim C3: the fallback transition is attached only to the load promise of
the first `layoutCallback`: over any sequence of layout calls with per-call
load outcomes `fails`, call `i` triggers `onImgLoadingError_` iff `i = 0` and
that call's load failed, every failing call's promise still rejects (the
catch rethrows), and no call after the first ever triggers the fallback —
for any element state of the `fallback` attribute.  (An element carrying the
`fallback` attribute is itself a fallback and never attaches the catch at
all, per the nested-fallback guard of `initialize_`.) -/
theorem c3_fallback_first_layout_only :
    (∀ (fails : List Bool) (i : Nat),
      (runLayouts false initialState fails).get? i =
        (fails.get? i).map (fun f => (decide (i = 0) && f, f))) ∧
    (∀ (hasFallbackAttr : Bool) (fails : List Bool) (i : Nat),
      ((runLayouts hasFallbackAttr initialState fails).get? (i + 1)).map Prod.fst =
        (fails.get? (i + 1)).map (fun _ => false)) := by
  constructor
  · intro fails i
    cases fails with
    | nil => simp [runLayouts]
    | cons f fs =>
      cases i with
      | zero => simp [runLayouts, layoutStep, initializeStep, initialState, layoutOutcome]
      | succ n =>
        have h1 : layoutStep false initialState =
            ({ imgInit := true, allowImgLoadFallback := false }, true) := rfl
        simp only [runLayouts, h1, List.get?_cons_succ, runLayouts_steady]
        simp [Nat.succ_ne_zero]
  · intro b fails i
    cases fails with
    | nil => simp [runLayouts]
    | cons f fs =>
      have h1 := layoutStep_initial_state b
      simp only [runLayouts, List.get?_cons_succ]
      rw [h1, runLayouts_steady]
      cases fs.get? i <;> simp

/-- Claim C4: with the native-srcset experiment off and a positive layout
width, `updateImageSrc_` dereferences the `low-res` attribute
unconditionally; when the attribute is absent it throws a `TypeError`
before performing any effect — no src is set and no load is started, so the
element never loads its image. -/
theorem c4_missing_low_res_throws (ctx : UpdCtx) (hw : 0 < ctx.layoutWidth)
    (hn : ctx.useNativeSrcset = false) (hl : ctx.lowResAttr = none) :
    updateImageSrc ctx = ([], Except.error JsError.typeError) := by
  have h0 : ¬ ctx.layoutWidth ≤ 0 := not_le.mpr hw
  simp [updateImageSrc, h0, hn, hl]

/-- Witness for claim C4: a laid-out element without `low-res`. -/
theorem c4_missing_low_res_throws_witness :
    updateImageSrc
      { layoutWidth := 100, useNativeSrcset := false,
        srcset := [⟨"a.jpg", 320⟩], viewportWidth := 300, screenWidth := 1000,
        dpr := 1, lowResAttr := none, imgSrcAttr := none } =
      ([], Except.error JsError.typeError) :=
  c4_missing_low_res_throws _ (by norm_num) rfl rfl

/-- Claim C5: `loadPromise` resolves no earlier than
`throttle = THROTTLE + floor(random() * THROTTLE)` (THROTTLE = 1200)
milliseconds after the call: a `load` event at elapsed time `e < throttle`
is delayed by `throttle - e`, while `e ≥ throttle` resolves immediately —
the dwell raises the floor and never caps latency. -/
theorem c5_throttle_floor (k e : Nat) (err : Option Nat) (_hk : k < THROTTLE) :
    loadPromiseSettlement k { loadAt := some e, errorAt := err } =
      some (Settlement.resolved (e + onloadDelay k e)) ∧
    THROTTLE = 1200 ∧
    throttleOf k = THROTTLE + k ∧
    throttleOf k ≤ e + onloadDelay k e ∧
    (e < throttleOf k →
      onloadDelay k e = throttleOf k - e ∧ e + onloadDelay k e = throttleOf k) ∧
    (throttleOf k ≤ e →
      onloadDelay k e = 0 ∧ e + onloadDelay k e = e) := by
  refine ⟨rfl, rfl, rfl, ?_, ?_, ?_⟩
  · simp only [onloadDelay]; omega
  · intro h; simp only [onloadDelay]; omega
  · intro h; simp only [onloadDelay]; omega

/-- Witness for claim C5: `k = 100`, load event at 50ms (before the floor)
resolves exactly at `throttle = 1300`. -/
theorem c5_throttle_floor_witness :
    loadPromiseSettlement 100 { loadAt := some 50, errorAt := none } =
      some (Settlement.resolved (50 + onloadDelay 100 50)) ∧
    throttleOf 100 ≤ 50 + onloadDelay 100 50 := by
  have h := c5_throttle_floor 100 50 none (by decide)
  exact ⟨h.1, h.2.2.2.1⟩

/-- Claim C2 counterexample: a second `updateImageSrc_` resolving the same
URL as the current img src still starts a resource load — before the
equality check, `createImg(src)` creates a probe `Image` whose `src` is set,
beginning a load — refuting "starts no second load of the resource", even
though the call returns an already-resolved promise. -/
theorem c2_noop_counterexample :
    UEffect.probeLoadStarted "a.jpg" ∈
      (updateImageSrc
        { layoutWidth := 100, useNativeSrcset := false,
          srcset := [⟨"a.jpg", 320⟩, ⟨"b.jpg", 640⟩], viewportWidth := 300,
          screenWidth := 1000, dpr := 1,
          lowResAttr := some "ff0000 00ff00 0000ff 000000",
          imgSrcAttr := some "a.jpg" }).1 ∧
    (updateImageSrc
        { layoutWidth := 100, useNativeSrcset := false,
          srcset := [⟨"a.jpg", 320⟩, ⟨"b.jpg", 640⟩], viewportWidth := 300,
          screenWidth := 1000, dpr := 1,
          lowResAttr := some "ff0000 00ff00 0000ff 000000",
          imgSrcAttr := some "a.jpg" }).2 = Except.ok UpdOutcome.resolvedImmediate := by
  have hsel : selectD [⟨"a.jpg", 320⟩, ⟨"b.jpg", 640⟩] (effectiveWidth 300 1000) 1 = "a.jpg" := by
    norm_num [selectD, srcsetSelect, effectiveWidth, List.filter_cons, minByWidth]
  constructor
  · norm_num [updateImageSrc, hsel]
  · norm_num [updateImageSrc, hsel]

/-- Claim C2 as amended: when a second `updateImageSrc_` resolves the same
URL currently set on the internal img, the call returns an already-resolved
promise, sets no src attribute, appends no placeholder / indicator /
container, and attaches no load chain on the internal img — but it is not
load-free: `createImg(src)` has already started a probe load of the URL and
`loadPromise` installed its `onload` handler before the equality check. -/
theorem c2_noop_amended (ctx : UpdCtx) (lr : String)
    (hw : 0 < ctx.layoutWidth) (hn : ctx.useNativeSrcset = false)
    (hl : ctx.lowResAttr = some lr)
    (hsame : ctx.imgSrcAttr =
      some (selectD ctx.srcset (effectiveWidth ctx.viewportWidth ctx.screenWidth) ctx.dpr)) :
    updateImageSrc ctx =
      ([UEffect.probeLoadStarted
          (selectD ctx.srcset (effectiveWidth ctx.viewportWidth ctx.screenWidth) ctx.dpr),
        UEffect.probeOnloadInstalled
          (selectD ctx.srcset (effectiveWidth ctx.viewportWidth ctx.screenWidth) ctx.dpr)],
       Except.ok UpdOutcome.resolvedImmediate) ∧
    (∀ u, UEffect.imgSrcSet u ∉ (updateImageSrc ctx).1) ∧
    UEffect.placeholderAppended ∉ (updateImageSrc ctx).1 ∧
    UEffect.mainLoadChainAttached ∉ (updateImageSrc ctx).1 ∧
    UEffect.probeLoadStarted
      (selectD ctx.srcset (effectiveWidth ctx.viewportWidth ctx.screenWidth) ctx.dpr) ∈
      (updateImageSrc ctx).1 := by
  have h0 : ¬ ctx.layoutWidth ≤ 0 := not_le.mpr hw
  have heq : updateImageSrc ctx =
      ([UEffect.probeLoadStarted
          (selectD ctx.srcset (effectiveWidth ctx.viewportWidth ctx.screenWidth) ctx.dpr),
        UEffect.probeOnloadInstalled
          (selectD ctx.srcset (effectiveWidth ctx.viewportWidth ctx.screenWidth) ctx.dpr)],
       Except.ok UpdOutcome.resolvedImmediate) := by
    simp [updateImageSrc, h0, hn, hl, hsame]
  refine ⟨heq, ?_, ?_, ?_, ?_⟩ <;> rw [heq] <;> simp

/-- Witness for the amended claim C2 at a concrete repeated selection. -/
theorem c2_noop_amended_witness :
    updateImageSrc
      { layoutWidth := 100, useNativeSrcset := false,
        srcset := [⟨"a.jpg", 320⟩, ⟨"b.jpg", 640⟩], viewportWidth := 300,
        screenWidth := 1000, dpr := 2,
        lowResAttr := some "ff0000", imgSrcAttr := some "b.jpg" } =
      ([UEffect.probeLoadStarted
          (selectD [⟨"a.jpg", 320⟩, ⟨"b.jpg", 640⟩] (effectiveWidth 300 1000) 2),
        UEffect.probeOnloadInstalled
          (selectD [⟨"a.jpg", 320⟩, ⟨"b.jpg", 640⟩] (effectiveWidth 300 1000) 2)],
       Except.ok UpdOutcome.resolvedImmediate) :=
  (c2_noop_amended
    { layoutWidth := 100, useNativeSrcset := false,
      srcset := [⟨"a.jpg", 320⟩, ⟨"b.jpg", 640⟩], viewportWidth := 300,
      screenWidth := 1000, dpr := 2,
      lowResAttr := some "ff0000", imgSrcAttr := some "b.jpg" }
    "ff0000" (by norm_num) rfl rfl
    (by norm_num [selectD, srcsetSelect, effectiveWidth, List.filter_cons, minByWidth,
      maxByWidth])).1

theorem sqrtSearch_sq_le (n k : Nat) : sqrtSearch n k * sqrtSearch n k ≤ n := by
  induction k with
  | zero => simp [sqrtSearch]
  | succ k ih =>
    by_cases h : (k + 1) * (k + 1) ≤ n
    · simp [sqrtSearch, h]
    · simpa [sqrtSearch, h] using ih

theorem le_sqrtSearch (n k j : Nat) (hj : j ≤ k) (hjj : j * j ≤ n) :
    j ≤ sqrtSearch n k := by
  induction k with
  | zero => simp [sqrtSearch]; omega
  | succ k ih =>
    by_cases h : (k + 1) * (k + 1) ≤ n
    · simp [sqrtSearch, h]; omega
    · simp only [sqrtSearch, if_neg h]
      rcases Nat.eq_or_lt_of_le hj with he | hlt
      · exact absurd (he ▸ hjj) h
      · exact ih (Nat.lt_succ_iff.mp hlt)

theorem lt_jsSqrtFloor_succ_sq (n : Nat) :
    n < (jsSqrtFloor n + 1) * (jsSqrtFloor n + 1) := by
  by_contra hcon
  push_neg at hcon
  have h1 : jsSqrtFloor n + 1 ≤ n :=
    le_trans (Nat.le_mul_of_pos_left _ (Nat.succ_pos _)) hcon
  have h2 := le_sqrtSearch n n (jsSqrtFloor n + 1) h1 hcon
  have h3 : jsSqrtFloor n = sqrtSearch n n := rfl
  omega

theorem fillCellsFrom_ok (pixels : List String) (k : Nat) :
    ∀ p, p + k ≤ pixels.length → fillCellsFrom pixels p k = Except.ok k := by
  induction k with
  | zero => intro p _; rfl
  | succ k ih =>
    intro p h
    have hp : p < pixels.length := by omega
    have hg : pixels.get? p = some (pixels.get ⟨p, hp⟩) := List.get?_eq_get hp
    simp only [fillCellsFrom, hg]
    rw [ih (p + 1) (by omega)]
    rfl

theorem fillCellsFrom_oob (pixels : List String) (k : Nat) :
    ∀ p, pixels.length < p + k → p ≤ pixels.length →
      fillCellsFrom pixels p k = Except.error JsError.typeError := by
  induction k with
  | zero => intro p hlt hp; omega
  | succ k ih =>
    intro p hlt hp
    rcases Nat.eq_or_lt_of_le hp with he | hplt
    · have hg : pixels.get? p = none := by rw [List.get?_eq_none]; omega
      simp only [fillCellsFrom, hg]
    · have hg : pixels.get? p = some (pixels.get ⟨p, hplt⟩) := List.get?_eq_get hplt
      simp only [fillCellsFrom, hg]
      rw [ih (p + 1) (by omega) (by omega)]
      rfl

theorem blurWithWorker_nonsquare (pixels : List String)
    (h : isSquareLen pixels.length = false) :
    blurWithWorker pixels = ([UEffect.logAssertFailed], Except.error JsError.typeError) := by
  have hd : dimIter pixels.length = jsSqrtFloor pixels.length + 1 := by
    simp [dimIter, h]
  have hlt : pixels.length < 0 + dimIter pixels.length * dimIter pixels.length := by
    rw [hd]
    simpa using lt_jsSqrtFloor_succ_sq pixels.length
  have hfc := fillCellsFrom_oob pixels
    (dimIter pixels.length * dimIter pixels.length) 0 hlt (Nat.zero_le _)
  simp [blurWithWorker, h, hfc]

theorem blurWithWorker_square (pixels : List String)
    (h : isSquareLen pixels.length = true) :
    blurWithWorker pixels =
      ([UEffect.workerMessagePosted],
       Except.ok { widthPx := 100, heightPx := 100, styleOpacity := "0",
                   cells := pixels.length }) := by
  have hsq : jsSqrtFloor pixels.length * jsSqrtFloor pixels.length = pixels.length := by
    simpa [isSquareLen] using h
  have hd : dimIter pixels.length = jsSqrtFloor pixels.length := by
    simp [dimIter, h]
  have hfc := fillCellsFrom_ok pixels
    (dimIter pixels.length * dimIter pixels.length) 0 (by rw [hd, hsq]; omega)
  rw [hd, hsq] at hfc
  simp [blurWithWorker, h, hfc, hd, hsq]

/-- Claim C7 counterexample: a 3-color palette (not a perfect square) does
NOT fail with a `PlaceholderShapeError` at construction: the shape assert
merely logs, and the mosaic loop then throws a plain `TypeError` on the
out-of-range palette read. -/
theorem c7_shape_counterexample :
    blurWithWorker ["ff0000", "00ff00", "0000ff"] =
      ([UEffect.logAssertFailed], Except.error JsError.typeError) ∧
    JsError.typeError ≠ JsError.placeholderShapeError :=
  ⟨rfl, by decide⟩

/-- Claim C7 as amended: for a palette of non-perfect-square length the
shape assertion only logs (it does not throw) and construction then fails
with a `TypeError` from reading past the palette's end; the error
propagates out of `updateImageSrc_` after the img `src` attribute was
already set (so the real image load has started but the load chain is never
attached); for a perfect-square palette construction succeeds and paints a
`sqrt(N) x sqrt(N)` grid of `N` cells. -/
theorem c7_shape_amended (pixels : List String) :
    (isSquareLen pixels.length = false →
      blurWithWorker pixels =
        ([UEffect.logAssertFailed], Except.error JsError.typeError)) ∧
    (isSquareLen pixels.length = true →
      blurWithWorker pixels =
        ([UEffect.workerMessagePosted],
         Except.ok { widthPx := 100, heightPx := 100, styleOpacity := "0",
                     cells := jsSqrtFloor pixels.length * jsSqrtFloor pixels.length }) ∧
      jsSqrtFloor pixels.length * jsSqrtFloor pixels.length = pixels.length) ∧
    updateImageSrc
      { layoutWidth := 100, useNativeSrcset := false,
        srcset := [⟨"a.jpg", 320⟩], viewportWidth := 300, screenWidth := 1000,
        dpr := 1, lowResAttr := some "ff0000 00ff00 0000ff", imgSrcAttr := none } =
      ([UEffect.probeLoadStarted "a.jpg", UEffect.probeOnloadInstalled "a.jpg",
        UEffect.imgSrcSet "a.jpg", UEffect.logAssertFailed],
       Except.error JsError.typeError) := by
  refine ⟨blurWithWorker_nonsquare pixels, ?_, ?_⟩
  · intro h
    have hsq : jsSqrtFloor pixels.length * jsSqrtFloor pixels.length = pixels.length := by
      simpa [isSquareLen] using h
    refine ⟨?_, hsq⟩
    rw [blurWithWorker_square pixels h, hsq]
  · have hsel : selectD [⟨"a.jpg", 320⟩] (effectiveWidth 300 1000) 1 = "a.jpg" := by
      norm_num [selectD, srcsetSelect, effectiveWidth, List.filter_cons, minByWidth,
        maxByWidth]
    have hblur : blurWithWorker (computePalette "ff0000 00ff00 0000ff") =
        ([UEffect.logAssertFailed], Except.error JsError.typeError) := rfl
    norm_num [updateImageSrc, hsel, hblur]
    intro h
    simp at h

/-- Witness for the amended claim C7 at the spec's 2x2 palette. -/
theorem c7_shape_amended_witness :
    blurWithWorker ["ff0000", "00ff00", "0000ff", "000000"] =
      ([UEffect.workerMessagePosted],
       Except.ok { widthPx := 100, heightPx := 100, styleOpacity := "0",
                   cells := jsSqrtFloor 4 * jsSqrtFloor 4 }) ∧
    jsSqrtFloor 4 * jsSqrtFloor 4 = 4 :=
  (c7_shape_amended ["ff0000", "00ff00", "0000ff", "000000"]).2.1 (by decide)

theorem hasRunSix_iff (l : List Char) :
    hasRunSix l = true ↔
      ∃ pre mid post, l = pre ++ mid ++ post ∧ mid.length = 6 ∧
        mid.all isLowerAlnum = true := by
  induction l with
  | nil =>
    simp only [hasRunSix]
    constructor
    · intro h; simp at h
    · rintro ⟨pre, mid, post, heq, hlen, -⟩
      have hl := congrArg List.length heq
      simp [hlen] at hl
      omega
  | cons c cs ih =>
    simp only [hasRunSix, Bool.or_eq_true]
    constructor
    · rintro (hw | hr)
      · have hw2 := (Bool.and_eq_true _ _).mp hw
        have hlen : 6 ≤ (c :: cs).length := of_decide_eq_true hw2.1
        refine ⟨[], (c :: cs).take 6, (c :: cs).drop 6, ?_, ?_, hw2.2⟩
        · simp
        · have hlc : (c :: cs).length = cs.length + 1 := rfl
          simp only [List.length_take, hlc] at hlen ⊢
          omega
      · obtain ⟨pre, mid, post, heq, hlen, hall⟩ := ih.mp hr
        exact ⟨c :: pre, mid, post, by simp [heq], hlen, hall⟩
    · rintro ⟨pre, mid, post, heq, hlen, hall⟩
      cases pre with
      | nil =>
        left
        simp only [List.nil_append] at heq
        have htake : (c :: cs).take 6 = mid := by
          rw [heq, ← hlen, List.take_left]
        have hlen2 : 5 ≤ cs.length := by
          have hl3 := congrArg List.length heq
          simp [hlen] at hl3
          omega
        simp [windowSixOk, htake, hall, hlen2]
      | cons p ps =>
        right
        apply ih.mpr
        simp only [List.cons_append] at heq
        have heq2 : cs = ps ++ mid ++ post := (List.cons.injEq _ _ _ _).mp heq |>.2
        exact ⟨ps, mid, post, heq2, hlen, hall⟩

/-- Claim C6 counterexample: the unanchored, lowercase-only token filter is
not "valid 6-hex-digit color": `zzzzzz` is kept though it is no hex color,
and `AABBCC` is a valid hex color yet dropped. -/
theorem c6_token_filter_counterexample :
    computePalette "zzzzzz" = ["zzzzzz"] ∧ tokenKept "zzzzzz" = true ∧
    isHex6Color "zzzzzz" = false ∧
    tokenKept "AABBCC" = false ∧ isHex6Color "AABBCC" = true := by
  refine ⟨by decide, by decide, by decide, by decide, by decide⟩

/-- Claim C6 as amended: the filter keeps a token iff the token contains six
consecutive characters each in `[a-z0-9]` (so lowercase hex colors are kept,
but uppercase hex colors are dropped and non-hex lowercase runs are kept);
malformed tokens are dropped silently and never make the pipeline fail; and
a descriptor yielding an empty palette still builds and appends a
placeholder canvas — there is no inert no-placeholder case. -/
theorem c6_token_filter_amended :
    (∀ s : String, tokenKept s = true ↔
      ∃ pre mid post, s.data = pre ++ mid ++ post ∧ mid.length = 6 ∧
        mid.all isLowerAlnum = true) ∧
    computePalette "XYZ QQQ" = [] ∧
    UEffect.placeholderAppended ∈
      (updateImageSrc
        { layoutWidth := 100, useNativeSrcset := false,
          srcset := [⟨"a.jpg", 320⟩], viewportWidth := 300, screenWidth := 1000,
          dpr := 1, lowResAttr := some "XYZ QQQ", imgSrcAttr := none }).1 ∧
    (updateImageSrc
        { layoutWidth := 100, useNativeSrcset := false,
          srcset := [⟨"a.jpg", 320⟩], viewportWidth := 300, screenWidth := 1000,
          dpr := 1, lowResAttr := some "XYZ QQQ", imgSrcAttr := none }).2 =
      Except.ok UpdOutcome.mainChain := by
  have hsel : selectD [⟨"a.jpg", 320⟩] (effectiveWidth 300 1000) 1 = "a.jpg" := by
    norm_num [selectD, srcsetSelect, effectiveWidth, List.filter_cons, minByWidth,
      maxByWidth]
  have hblur : blurWithWorker (computePalette "XYZ QQQ") =
      ([UEffect.workerMessagePosted],
       Except.ok { widthPx := 100, heightPx := 100, styleOpacity := "0", cells := 0 }) :=
    rfl
  have hupd : updateImageSrc
      { layoutWidth := 100, useNativeSrcset := false,
        srcset := [⟨"a.jpg", 320⟩], viewportWidth := 300, screenWidth := 1000,
        dpr := 1, lowResAttr := some "XYZ QQQ", imgSrcAttr := none } =
      ([UEffect.probeLoadStarted "a.jpg", UEffect.probeOnloadInstalled "a.jpg",
        UEffect.imgSrcSet "a.jpg", UEffect.workerMessagePosted,
        UEffect.placeholderAppended, UEffect.indicatorAppended,
        UEffect.containerAppended "a.jpg", UEffect.revealChainAttached,
        UEffect.mainLoadChainAttached], Except.ok UpdOutcome.mainChain) := by
    norm_num [updateImageSrc, hsel, hblur]
    intro h
    simp at h
  refine ⟨fun s => hasRunSix_iff s.data, by decide, ?_, ?_⟩
  · rw [hupd]; simp
  · rw [hupd]

/-- Claim C8 counterexample: a worker response whose id matches no canvas in
the document is NOT dropped harmlessly — the handler calls
`getContext` on the `null` result of `getElementById` and throws a
`TypeError`. -/
theorem c8_stale_response_counterexample :
    workerOnMessage [] "i-amphtml-c-1" = Except.error JsError.typeError := rfl

/-- Claim C8 as amended: a stale worker response mutates no DOM node, but it
is not silently dropped: the handler throws a `TypeError` when the target
canvas no longer exists; when the canvas does exist, the response is applied
to exactly that canvas (image data written, opacity set to 1). -/
theorem c8_stale_response_amended (doc : List String) (msgId : String) :
    (doc.contains msgId = false →
      workerOnMessage doc msgId = Except.error JsError.typeError) ∧
    (doc.contains msgId = true →
      workerOnMessage doc msgId =
        Except.ok [WEffect.putImageData msgId, WEffect.setOpacityOne msgId]) := by
  constructor
  · intro h
    have h2 : msgId ∉ doc := by simpa using h
    simp [workerOnMessage, h2]
  · intro h
    have h2 : msgId ∈ doc := by simpa using h
    simp [workerOnMessage, h2]

/-- Witness for the amended claim C8: live canvas `c1` gets the data; the
response for the removed canvas `c2` throws. -/
theorem c8_stale_response_amended_witness :
    workerOnMessage ["i-amphtml-c-1"] "i-amphtml-c-1" =
      Except.ok [WEffect.putImageData "i-amphtml-c-1",
                 WEffect.setOpacityOne "i-amphtml-c-1"] ∧
    workerOnMessage ["i-amphtml-c-1"] "i-amphtml-c-2" =
      Except.error JsError.typeError :=
  ⟨(c8_stale_response_amended ["i-amphtml-c-1"] "i-amphtml-c-1").2 (by decide),
   (c8_stale_response_amended ["i-amphtml-c-1"] "i-amphtml-c-2").1 (by decide)⟩

/-- Claim C9 counterexample: the canvas's opacity is NOT set to 1 only after
the load promise resolves — the worker's blur response (here at 10ms)
already sets it to 1 while the load promise resolves only at 1000ms. -/
theorem c9_reveal_counterexample :
    canvasOpacityAt (some 10) (some 1000) 10 = "1" ∧
    firedB (some 1000) 10 = false := by
  constructor <;> rfl

/-- Claim C9 as amended: the placeholder canvas starts fully transparent
(opacity "0"); its opacity becomes "1" as soon as EITHER the worker's blur
response is applied or the real image's load promise resolves (not only the
latter); and the removal timer detaches it exactly 500ms after the load
promise resolves, unconditionally — no removal ever happens without a load
resolution. -/
theorem c9_reveal_amended :
    (∀ (palette : List String) (c : Canvas),
      (blurWithWorker palette).2 = Except.ok c → c.styleOpacity = "0") ∧
    (∀ (wr lr : Option Nat) (t : Nat),
      firedB lr t = true → canvasOpacityAt wr lr t = "1") ∧
    (∀ (wr lr : Option Nat) (t : Nat),
      firedB wr t = true → canvasOpacityAt wr lr t = "1") ∧
    (∀ r : Nat, canvasRemovalTime (some r) = some (r + 500)) ∧
    canvasRemovalTime none = none ∧
    (∀ (r t : Nat), canvasRemovedAt (some r) t = decide (r + 500 ≤ t)) := by
  refine ⟨?_, ?_, ?_, fun r => rfl, rfl, fun r t => rfl⟩
  · intro palette c h
    rcases hsq : isSquareLen palette.length with _ | _
    · rw [blurWithWorker_nonsquare palette hsq] at h
      simp at h
    · rw [blurWithWorker_square palette hsq] at h
      simp only [Except.ok.injEq] at h
      rw [← h]
  · intro wr lr t h
    simp [canvasOpacityAt, h]
  · intro wr lr t h
    simp [canvasOpacityAt, h]

/-- Witness for the amended claim C9: a freshly built 2x2 placeholder canvas
is transparent; it is revealed by a load resolution at 40ms (checked at
50ms); removal fires exactly at 540ms. -/
theorem c9_reveal_amended_witness :
    Canvas.styleOpacity
      { widthPx := 100, heightPx := 100, styleOpacity := "0", cells := 4 } = "0" ∧
    canvasOpacityAt none (some 40) 50 = "1" ∧
    canvasRemovalTime (some 40) = some (40 + 500) :=
  ⟨c9_reveal_amended.1 ["ff0000", "00ff00", "0000ff", "000000"]
      { widthPx := 100, heightPx := 100, styleOpacity := "0", cells := 4 } rfl,
   c9_reveal_amended.2.1 none (some 40) 50 rfl,
   c9_reveal_amended.2.2.2.1 40⟩

/-- Claim C10: `loadPromise` installs only an `onload` handler and its
promise has no rejection path: for an element whose `error` event fires and
whose `load` event never does, the promise never settles (no call ever
rejects), so the continuations chained on it — the canvas reveal and its
500ms removal timer, and the container opacity transition — never run. -/
theorem c10_no_rejection_path (k : Nat) (ev : ElementEvents) :
    (∀ t, loadPromiseSettlement k ev ≠ some (Settlement.rejected t)) ∧
    (∀ te : Nat, ev.errorAt = some te → ev.loadAt = none →
      loadPromiseSettlement k ev = none ∧
      containerRevealTime k ev = none ∧
      canvasRemovalTime (settleTime (loadPromiseSettlement k ev)) = none ∧
      ∀ t, canvasOpacityAt none (settleTime (loadPromiseSettlement k ev)) t = "0") := by
  constructor
  · intro t
    cases hev : ev.loadAt <;>
      simp [loadPromiseSettlement, hev]
  · intro te _ hload
    simp [loadPromiseSettlement, hload, containerRevealTime, settleTime,
      canvasRemovalTime, canvasOpacityAt, firedB]

/-- Witness for claim C10: error at 3ms, load never fires. -/
theorem c10_no_rejection_path_witness :
    loadPromiseSettlement 7 { loadAt := none, errorAt := some 3 } = none ∧
    containerRevealTime 7 { loadAt := none, errorAt := some 3 } = none :=
  have h := (c10_no_rejection_path 7 { loadAt := none, errorAt := some 3 }).2 3 rfl rfl
  ⟨h.1, h.2.1⟩

end AmpImg
